import Mathlib

/-
Verification development for the givemeratio repository.

Shallow embedding of src/givemeratio/givemeratio.py (and the Tracker model
of src/givemeratio/settings.py) in Lean 4.  Machine integers in the Python
source are unbounded, so they are modelled as Int/Nat; datetimes are
modelled by their POSIX instant in seconds together with the UTC offset of
their attached time zone; fallible code returns Except/Option.  External
collaborators (the qBittorrent client, the torf torrent parser, the pytz
time-zone database, the file system) are passed in explicitly as data or
as function arguments, mirroring exactly the calls the source makes.
-/

/-- Model of a Python aware `datetime`: `utc` is the denoted instant as
POSIX seconds, `offset` is the UTC offset (in seconds) of the attached
time zone.  Aware datetimes compare and subtract by instant (`utc`);
`strftime` without `%z` renders the wall clock `utc + offset`. -/
structure AwareDateTime where
  utc : Int
  offset : Int
deriving DecidableEq, Repr

/-- Wall-clock reading of an aware datetime, in seconds: what
`strftime("%Y-%m-%d %H:%M:%S")` renders.  For years 1000-9999 the
lexicographic order of that zero-padded string coincides with the numeric
order of this value. -/
def AwareDateTime.wallclock (d : AwareDateTime) : Int := d.utc + d.offset

/-- Embeds `RSSItem.parse_datetime` (givemeratio.py lines 61-68):
`strptime(date_string, "%a, %d %b %Y %H:%M:%S %z")` yields the instant
`src` (string-decoding mechanics are the out-of-scope parsing boundary;
the timestamp is represented by the instant it denotes);
`.astimezone(pytz.timezone("America/Los_Angeles"))` keeps the instant and
attaches the Los Angeles offset at that instant (`laOffset src`, an
external time-zone database passed as a function); then `dt -=
timedelta(hours=8)` moves the wall clock, hence the instant, back by 8
hours while keeping the attached offset. -/
def parse_datetime (laOffset : Int → Int) (src : Int) : AwareDateTime :=
  { utc := src - 8 * 3600, offset := laOffset src }

/-- Embeds the `Tracker` pydantic model of settings.py (durations in
seconds, sizes in bytes). -/
structure Tracker where
  name : String
  prowlarr_id : Int
  min_seeding_time : Int
  max_torrent_size_bytes : Int
  min_torrent_size_bytes : Int
  max_storage_size_bytes : Int
  min_published_recency : Int
deriving DecidableEq, Repr

/-- Embeds `TorznabAttr` (givemeratio.py lines 36-49). -/
structure TorznabAttr where
  seeders : Int
  files : Int
  grabs : Int
  peers : Int
  downloadvolumefactor : Int
  uploadvolumefactor : Int
deriving DecidableEq, Repr

/-- Embeds `RSSItem` (givemeratio.py lines 52-87).  `id` is a Nat: every
construction site extracts it with the regex `torrentid=(\d+)`. -/
structure RSSItem where
  id : Nat
  title : String
  size : Int
  publish_date : AwareDateTime
  download_url : String
  torrent : TorznabAttr
  tracker : Tracker
deriving DecidableEq, Repr

/-- Embeds the `RSSItem.freeleech` property (line 80):
`downloadvolumefactor == 0`. -/
def RSSItem.freeleech (item : RSSItem) : Bool :=
  item.torrent.downloadvolumefactor == 0

/-- Embeds `ValidationReasons` (givemeratio.py lines 134-141). -/
inductive ValidationReasons where
  | FILE_EXISTS_ALREADY
  | FILE_SEEDING_ALREADY
  | TORRENT_TOO_LARGE
  | TORRENT_TOO_SMALL
  | TRACKER_BUDGET_EXCEEDED
  | GLOBAL_BUDGET_EXCEEDED
  | NOT_RECENT_ENOUGH
deriving DecidableEq, Repr

/-- Embeds `RatioManager.check_exists` (lines 293-298): the
`qbt.torrents_properties(infohash)` call either returns properties or
raises `NotFound404Error`; that outcome is the `Option` argument.  The
absent case returns `false` instead of propagating an error. -/
def check_exists (props : Option Unit) : Bool :=
  props.isSome

/-- The live state `RatioManager.validate` reads during one call:
`os.path.exists(item.filepath)`; the torrent-client properties lookup for
the existing local file's infohash (`none` models the NotFound404Error);
the two successive `check_seeding_size()` reads (lines 254 and 258, each a
live sum of client-reported sizes for the managed category);
`settings.MAX_STORAGE_SIZE_BYTES`; and `datetime.now(...)` as an
instant. -/
structure ValidateEnv where
  fileExists : Bool
  clientProps : Option Unit
  seeding1 : Int
  seeding2 : Int
  globalMax : Int
  nowUtc : Int
deriving DecidableEq, Repr

/-- Embeds `RatioManager.validate` (givemeratio.py lines 238-266),
appending reasons in source order.  The `FILE_SEEDING_ALREADY` check
(`check_exists` on the local file's infohash) sits inside the
`os.path.exists` branch, exactly as in the source. -/
def validate (t : Tracker) (item : RSSItem) (env : ValidateEnv) :
    List ValidationReasons :=
  (if env.fileExists then
      ValidationReasons.FILE_EXISTS_ALREADY ::
        (if check_exists env.clientProps then
          [ValidationReasons.FILE_SEEDING_ALREADY]
        else [])
    else [])
  ++ (if item.size > t.max_torrent_size_bytes then
        [ValidationReasons.TORRENT_TOO_LARGE] else [])
  ++ (if item.size < t.min_torrent_size_bytes then
        [ValidationReasons.TORRENT_TOO_SMALL] else [])
  ++ (if env.seeding1 + item.size > t.max_storage_size_bytes then
        [ValidationReasons.TRACKER_BUDGET_EXCEEDED] else [])
  ++ (if env.seeding2 + item.size > env.globalMax then
        [ValidationReasons.GLOBAL_BUDGET_EXCEEDED] else [])
  ++ (if env.nowUtc - item.publish_date.utc > t.min_published_recency then
        [ValidationReasons.NOT_RECENT_ENOUGH] else [])

/-- A sample tracker profile with the default limits of settings.py
(min seed time 7 days, sizes 500 MB - 100 GB, storage budget 330 GiB,
recency window 2 hours). -/
def sampleTracker : Tracker :=
  { name := "ggn"
    prowlarr_id := 17
    min_seeding_time := 604800
    max_torrent_size_bytes := 100000000000
    min_torrent_size_bytes := 500000000
    max_storage_size_bytes := 322122547200
    min_published_recency := 7200 }

/-- A sample torznab attribute block (freeleech). -/
def sampleAttrs : TorznabAttr :=
  { seeders := 3, files := 1, grabs := 5, peers := 2
    downloadvolumefactor := 0, uploadvolumefactor := 1 }

/-- A release of a given size, freshly published at instant 0. -/
def sampleItem (size : Int) : RSSItem :=
  { id := 101
    title := "sample"
    size := size
    publish_date := { utc := 0, offset := -28800 }
    download_url := "https://example.com/dl/101"
    torrent := sampleAttrs
    tracker := sampleTracker }

/-- An environment in which the release's local torrent file does not
exist on disk while its content hash is known to the torrent client. -/
def c1Env : ValidateEnv :=
  { fileExists := false
    clientProps := some ()
    seeding1 := 0
    seeding2 := 0
    globalMax := 322122547200
    nowUtc := 0 }

/-- The tracker of the C2 scenario: `max_storage_size = 100_000_000`,
size bounds wide open so only the budget checks are in play. -/
def c2Tracker : Tracker :=
  { name := "ggn"
    prowlarr_id := 17
    min_seeding_time := 604800
    max_torrent_size_bytes := 100000000000
    min_torrent_size_bytes := 0
    max_storage_size_bytes := 100000000
    min_published_recency := 7200 }

/-- The environment of the C2 scenario: both live reads of the per-tracker
seeding total return `90_000_000`; the global budget is kept out of the
way. -/
def c2Env : ValidateEnv :=
  { fileExists := false
    clientProps := none
    seeding1 := 90000000
    seeding2 := 90000000
    globalMax := 322122547200
    nowUtc := 0 }

/-- A release of the given size on the C2 tracker. -/
def c2Item (size : Int) : RSSItem :=
  { id := 202
    title := "budget sample"
    size := size
    publish_date := { utc := 0, offset := -28800 }
    download_url := "https://example.com/dl/202"
    torrent := sampleAttrs
    tracker := c2Tracker }

/-- The Python exceptions the embedded code can raise. -/
inductive PyError where
  | valueError
  | keyError (key : String)
  | validationError
  | torfError
  | fileNotFoundError
deriving DecidableEq, Repr

/-- One item of the fetched feed document, as handed to `ProwlarrAPI.parse`
by `xmltodict` (givemeratio.py line 111): the raw fields the loop body
reads.  `pubDate` is the instant denoted by the RFC-822 timestamp string
(string-decoding mechanics are the out-of-scope parsing boundary). -/
structure RawItem where
  title : String
  guid : String
  size : Int
  pubDate : Int
  link : String
  attrs : List (String × Int)
deriving DecidableEq, Repr

/-- Python dict built from the torznab attribute pairs (last assignment
wins), looked up by attribute name. -/
def lookupAttr (attrs : List (String × Int)) (key : String) : Option Int :=
  (attrs.reverse.find? (fun p => p.1 == key)).map (·.2)

/-- Embeds `TorznabAttr.from_rss` (lines 44-49) followed by the pydantic
construction `cls(**vals)`: all six fields must be present, otherwise
pydantic raises a ValidationError (`none`). -/
def TorznabAttr.from_rss (attrs : List (String × Int)) : Option TorznabAttr := do
  let seeders ← lookupAttr attrs "seeders"
  let files ← lookupAttr attrs "files"
  let grabs ← lookupAttr attrs "grabs"
  let peers ← lookupAttr attrs "peers"
  let dvf ← lookupAttr attrs "downloadvolumefactor"
  let uvf ← lookupAttr attrs "uploadvolumefactor"
  pure ⟨seeders, files, grabs, peers, dvf, uvf⟩

/-- Decimal value of a digit list, most significant digit first. -/
def digitsVal (ds : List Char) : Nat :=
  ds.foldl (fun a c => a * 10 + (c.toNat - 48)) 0

/-- Embeds `re.search(r"torrentid=(\d+)", s)` (line 114): scan left to
right for an occurrence of the literal `torrentid=` that is followed by at
least one digit; the captured group is the maximal digit run there.  An
occurrence not followed by a digit is skipped and the scan resumes one
character further, as regex search does. -/
def findTorrentIdAux : List Char → Option Nat
  | [] => none
  | c :: cs =>
    if List.isPrefixOf "torrentid=".toList (c :: cs) then
      let ds := ((c :: cs).drop 10).takeWhile Char.isDigit
      if ds = [] then findTorrentIdAux cs else some (digitsVal ds)
    else findTorrentIdAux cs

/-- Regex search for `torrentid=(\d+)` over a string. -/
def findTorrentId (s : String) : Option Nat :=
  findTorrentIdAux s.data

/-- The body of the `for item in items` loop of `ProwlarrAPI.parse`
(lines 112-129): build the `TorznabAttr` (pydantic may raise), extract the
numeric id from the guid (raises ValueError when the pattern is absent),
then construct the `RSSItem`, whose pydantic validator normalizes the
publish timestamp via `parse_datetime`. -/
def parseItem (laOffset : Int → Int) (tracker : Tracker) (item : RawItem) :
    Except PyError RSSItem :=
  match TorznabAttr.from_rss item.attrs with
  | none => .error .validationError
  | some torrent =>
    match findTorrentId item.guid with
    | none => .error .valueError
    | some tid =>
      .ok { id := tid
            title := item.title
            size := item.size
            publish_date := parse_datetime laOffset item.pubDate
            download_url := item.link
            torrent := torrent
            tracker := tracker }

/-- Embeds `ProwlarrAPI.parse` (lines 109-131): the loop appends one
`RSSItem` per raw item and an uncaught exception aborts the whole loop, so
the batch result is the first error if any item fails, otherwise the list
of all parsed items. -/
def ProwlarrAPI.parse (laOffset : Int → Int) (items : List RawItem)
    (tracker : Tracker) : Except PyError (List RSSItem) :=
  match items with
  | [] => .ok []
  | item :: rest =>
    match parseItem laOffset tracker item with
    | .error e => .error e
    | .ok r =>
      match ProwlarrAPI.parse laOffset rest tracker with
      | .error e => .error e
      | .ok rs => .ok (r :: rs)

/-- The sort key of `RatioManager.get_rss` (lines 233-234):
`item.publish_date.strftime("%Y-%m-%d %H:%M:%S")` renders the wall clock
without the UTC offset, and for years 1000-9999 the lexicographic order of
those zero-padded strings is the numeric order of the wall-clock value in
seconds. -/
def rssKey (item : RSSItem) : Int :=
  item.publish_date.wallclock

/-- Stable insertion into a list that is nondecreasing in `rssKey`:
the new element goes after existing elements with an equal key. -/
def insertAsc (x : RSSItem) : List RSSItem → List RSSItem
  | [] => [x]
  | y :: ys => if rssKey x < rssKey y then x :: y :: ys else y :: insertAsc x ys

/-- Python's stable `sorted(results, key=key)`: nondecreasing in the key,
ties kept in input order. -/
def sortAsc (l : List RSSItem) : List RSSItem :=
  l.foldl (fun acc x => insertAsc x acc) []

/-- Embeds `RatioManager.get_rss` (lines 222-236): per-item freeleech
filter exactly as the loop writes it, then `sorted(results, key=key)[::-1]`
— a stable ascending sort by the formatted-timestamp key followed by a
reversal.  `items` is the list `ProwlarrAPI.retrieve_rss` returned. -/
def get_rss (items : List RSSItem) (freeleech_only : Bool) : List RSSItem :=
  let results := items.filter
    (fun item => if freeleech_only then item.freeleech else true)
  (sortAsc results).reverse

/-- What `torf.Torrent.read_stream` exposes of a parsed torrent file:
`infohash`, `name`, `size` (external library, passed in as a function). -/
structure TorfInfo where
  infohash : String
  name : String
  size : Int
deriving DecidableEq, Repr

/-- Embeds `LocalTorrentFile` (lines 157-207); `contents` is the raw byte
string of the torrent file. -/
structure LocalTorrentFile where
  id : Nat
  tracker : Tracker
  infohash : String
  name : String
  contents : List Nat
  size : Int
deriving DecidableEq, Repr

/-- Decimal digits of a natural number, most significant first: models
Python's `str`/f-string formatting of a nonnegative int. -/
def decimalRepr (n : Nat) : List Char :=
  if n < 10 then [Nat.digitChar n]
  else decimalRepr (n / 10) ++ [Nat.digitChar (n % 10)]
decreasing_by omega

/-- Embeds `generate_filepath` (lines 30-33) at the file-name level:
`f"[\x7btracker.name\x7d]\x7btorrent_id\x7d.torrent"`.  The configured
directory `settings.TORRENT_FILE_LOCATION` is the common prefix of writer
and reader and carries no information, so the model works with the file
name. -/
def generate_filepath (tracker : Tracker) (torrent_id : Nat) : String :=
  "[" ++ tracker.name ++ "]" ++ String.mk (decimalRepr torrent_id) ++ ".torrent"

/-- All ways to split a character list at a `]`, as (before, after) pairs
in left-to-right order of the split point. -/
def bracketSplits : List Char → List (List Char × List Char)
  | [] => []
  | c :: cs =>
    let rest := (bracketSplits cs).map (fun p => (c :: p.1, p.2))
    if c = ']' then ([], cs) :: rest else rest

/-- The `.torrent` tail of the file-name regex: one arbitrary character
(the unescaped `.`) followed by the literal `torrent`; `re.match` needs no
end anchor, so a prefix match suffices. -/
def dotTorrentCheck : List Char → Bool
  | [] => false
  | _ :: t => List.isPrefixOf "torrent".toList t

/-- Backtracking for the greedy `([0-9]+)` group: try the longest digit
prefix first, then shorter ones, each followed by the `.torrent` tail. -/
def tryDigitLens (run rest : List Char) : Nat → Option (List Char)
  | 0 => none
  | k + 1 =>
    if dotTorrentCheck (run.drop (k + 1) ++ rest) then some (run.take (k + 1))
    else tryDigitLens run rest k

/-- Match `([0-9]+).torrent` as a prefix of `cs`, returning the digit
group chosen by greedy matching. -/
def matchIdTorrent (cs : List Char) : Option (List Char) :=
  tryDigitLens (cs.takeWhile Char.isDigit) (cs.dropWhile Char.isDigit)
    (cs.takeWhile Char.isDigit).length

/-- Embeds `re.match(r"\[(.*)\]([0-9]+).torrent", name)` of
`LocalTorrentFile.from_filepath` (line 181): the name must start with
`[`; the greedy `(.*)` takes the rightmost `]` whose remainder matches
`([0-9]+).torrent`, backtracking leftwards. -/
def parseFilenameList (cs : List Char) : Option (String × Nat) :=
  match cs with
  | '[' :: rest =>
    (bracketSplits rest).reverse.findSome? (fun p =>
      (matchIdTorrent p.2).map (fun ds => (String.mk p.1, digitsVal ds)))
  | _ => none

/-- File-name pattern match of `LocalTorrentFile.from_filepath`. -/
def parseFilename (s : String) : Option (String × Nat) :=
  parseFilenameList s.data

/-- Embeds `LocalTorrentFile.from_bytes` (lines 191-201):
`torf.Torrent.read_stream` (the external parser `torfRead`; `none` models
a parse failure raised by torf) supplies infohash, name and size, and the
raw bytes are kept. -/
def LocalTorrentFile.from_bytes (torfRead : List Nat → Option TorfInfo)
    (torrent_id : Nat) (tracker : Tracker) (contents : List Nat) :
    Option LocalTorrentFile :=
  (torfRead contents).map (fun ti =>
    { id := torrent_id
      tracker := tracker
      infohash := ti.infohash
      name := ti.name
      contents := contents
      size := ti.size })

/-- Embeds `LocalTorrentFile.from_filepath` (lines 178-189): pattern-match
the file name (ValueError when unrecognizable), resolve the tracker in
`AVAILABLE_TRACKERS` (`registry`; a missing name raises KeyError), read
the file's bytes (supplied by the caller, who resolved the path), and
rebuild the record with `from_bytes`. -/
def LocalTorrentFile.from_filepath (torfRead : List Nat → Option TorfInfo)
    (registry : String → Option Tracker) (filename : String)
    (contents : List Nat) : Except PyError LocalTorrentFile :=
  match parseFilename filename with
  | none => .error .valueError
  | some (trackerName, torrentId) =>
    match registry trackerName with
    | none => .error (.keyError trackerName)
    | some tracker =>
      match LocalTorrentFile.from_bytes torfRead torrentId tracker contents with
      | none => .error .torfError
      | some t => .ok t

/-- File-system model: the torrent directory as an association of file
names to byte contents.  `open(path, "wb")` overwrites an existing file in
place. -/
def fsInsert : List (String × List Nat) → String → List Nat →
    List (String × List Nat)
  | [], k, v => [(k, v)]
  | (k', v') :: rest, k, v =>
    if k' = k then (k, v) :: rest else (k', v') :: fsInsert rest k v

/-- Read a file's bytes from the directory model. -/
def fsLookup (fs : List (String × List Nat)) (k : String) : Option (List Nat) :=
  (fs.find? (fun p => p.1 == k)).map (·.2)

/-- Embeds `LocalTorrentFile.to_file` (lines 169-171): write the raw bytes
at the record's deterministic path. -/
def LocalTorrentFile.to_file (fs : List (String × List Nat))
    (t : LocalTorrentFile) : List (String × List Nat) :=
  fsInsert fs (generate_filepath t.tracker t.id) t.contents

/-- One entry of the torrent client's `torrents_info` response. -/
structure QBTInfo where
  infohash_v1 : String
  seeding_time : Int
deriving DecidableEq, Repr

/-- The dict comprehension `\x7binfo.infohash_v1: info for info in raw\x7d`
(line 312) keeps the last entry per hash; a lookup in it. -/
def qbtLookup (report : List QBTInfo) (hash : String) : Option QBTInfo :=
  report.reverse.find? (fun i => i.infohash_v1 == hash)

/-- Python dict insertion keyed by `LocalTorrentFile`, whose `__eq__` and
`__hash__` compare infohashes only (lines 203-207): an existing key keeps
its original key object and takes the new value. -/
def dictInsert : List (LocalTorrentFile × Int) → LocalTorrentFile → Int →
    List (LocalTorrentFile × Int)
  | [], k, v => [(k, v)]
  | (k', v') :: rest, k, v =>
    if k'.infohash = k.infohash then (k', v) :: rest
    else (k', v') :: dictInsert rest k v

/-- The first loop of `RatioManager.check_seed_times` (lines 304-308):
rebuild a `LocalTorrentFile` from each directory entry in listing order;
an exception raised by `from_filepath` aborts the pass. -/
def listdir_torrents (torfRead : List Nat → Option TorfInfo)
    (registry : String → Option Tracker) :
    List (String × List Nat) → Except PyError (List LocalTorrentFile)
  | [] => .ok []
  | (fn, contents) :: rest =>
    match LocalTorrentFile.from_filepath torfRead registry fn contents with
    | .error e => .error e
    | .ok t =>
      match listdir_torrents torfRead registry rest with
      | .error e => .error e
      | .ok ts => .ok (t :: ts)

/-- The second loop of `RatioManager.check_seed_times` (lines 314-317):
pair each record with its client-reported seeding time; the dict lookup
raises KeyError at the first record whose hash the client did not
report. -/
def seed_time_pairs (report : List QBTInfo) :
    List LocalTorrentFile → Except PyError (List (LocalTorrentFile × Int))
  | [] => .ok []
  | t :: rest =>
    match qbtLookup report t.infohash with
    | none => .error (.keyError t.infohash)
    | some info =>
      match seed_time_pairs report rest with
      | .error e => .error e
      | .ok ps => .ok ((t, info.seeding_time) :: ps)

/-- Embeds `RatioManager.check_seed_times` (lines 300-318): rebuild a
`LocalTorrentFile` from every file of the torrent directory (`files` is
the `os.listdir` result paired with each file's bytes), query the torrent
client for those hashes (`report` is the `torrents_info` response), and
map each record to its client-reported seeding time.  The lookup
`qbittorrent_info[torrent.infohash]` raises KeyError on the first record
whose hash the client did not report, aborting the whole pass. -/
def check_seed_times (torfRead : List Nat → Option TorfInfo)
    (registry : String → Option Tracker) (files : List (String × List Nat))
    (report : List QBTInfo) : Except PyError (List (LocalTorrentFile × Int)) :=
  match listdir_torrents torfRead registry files with
  | .error e => .error e
  | .ok torrents =>
    match seed_time_pairs report torrents with
    | .error e => .error e
    | .ok pairs => .ok (pairs.foldl (fun acc p => dictInsert acc p.1 p.2) [])

/-- `os.path.exists` on the directory model. -/
def os_path_exists (disk : List String) (filename : String) : Bool :=
  disk.contains filename

/-- `os.remove` on the directory model: removing an absent file raises
FileNotFoundError. -/
def os_remove (disk : List String) (filename : String) :
    Except PyError (List String) :=
  if disk.contains filename then .ok (disk.erase filename)
  else .error .fileNotFoundError

/-- Observable outcome of one `clean_up` pass: the returned
torrent-to-removed map (in iteration order), the infohashes passed to
`qbt.torrents_delete` (in call order), and the directory afterwards. -/
structure CleanupResult where
  results : List (LocalTorrentFile × Bool)
  deletes : List String
  disk : List String
deriving DecidableEq, Repr

/-- The `for torrent, seed_time in torrents.items()` loop of
`RatioManager.clean_up` (lines 323-333): below the tracker's
`min_seeding_time` the torrent is only reported `False`; otherwise the
client entry is deleted with its data, the local file is removed if it
still exists (`os.path.exists` guard, line 331), and the torrent is
reported `True`. -/
def clean_up_loop : List (LocalTorrentFile × Int) → CleanupResult →
    Except PyError CleanupResult
  | [], st => .ok st
  | (t, seed_time) :: rest, st =>
    if seed_time < t.tracker.min_seeding_time then
      clean_up_loop rest
        { results := st.results ++ [(t, false)]
          deletes := st.deletes
          disk := st.disk }
    else do
      let deletes := st.deletes ++ [t.infohash]
      let disk ←
        if os_path_exists st.disk (generate_filepath t.tracker t.id) then
          os_remove st.disk (generate_filepath t.tracker t.id)
        else pure st.disk
      clean_up_loop rest
        { results := st.results ++ [(t, true)]
          deletes := deletes
          disk := disk }

/-- Embeds `RatioManager.clean_up` (lines 320-334): reconcile seed times,
then sweep. -/
def clean_up (torfRead : List Nat → Option TorfInfo)
    (registry : String → Option Tracker) (files : List (String × List Nat))
    (report : List QBTInfo) : Except PyError CleanupResult := do
  let torrents ← check_seed_times torfRead registry files report
  clean_up_loop torrents
    { results := [], deletes := [], disk := files.map Prod.fst }

/-- A complete torznab attribute list, as name/value pairs. -/
def sampleAttrPairs : List (String × Int) :=
  [("seeders", 3), ("files", 1), ("grabs", 5), ("peers", 2),
   ("downloadvolumefactor", 0), ("uploadvolumefactor", 1)]

/-- A well-formed feed item whose guid embeds torrent id 11. -/
def c7Good1 : RawItem :=
  { title := "good one"
    guid := "https://gazellegames.net/torrents.php?id=7&torrentid=11"
    size := 600000000
    pubDate := 0
    link := "https://example.com/dl/11"
    attrs := sampleAttrPairs }

/-- A feed item whose guid carries no `torrentid=<digits>` pattern. -/
def c7Bad : RawItem :=
  { title := "bad"
    guid := "https://gazellegames.net/torrents.php?id=7"
    size := 700000000
    pubDate := 0
    link := "https://example.com/dl/7"
    attrs := sampleAttrPairs }

/-- A well-formed feed item whose guid embeds torrent id 13. -/
def c7Good2 : RawItem :=
  { title := "good two"
    guid := "https://gazellegames.net/torrents.php?id=9&torrentid=13"
    size := 800000000
    pubDate := 0
    link := "https://example.com/dl/13"
    attrs := sampleAttrPairs }

/-- The record `from_filepath` rebuilds from the file `[ggn]1.torrent`
with bytes `[1, 2]` when torf reports infohash h1, name n, size 5. -/
def c5Torrent : LocalTorrentFile :=
  { id := 1, tracker := sampleTracker, infohash := "h1", name := "n"
    contents := [1, 2], size := 5 }

/-- The record `from_filepath` rebuilds from the file `[ggn]2.torrent`
with bytes `[9]` when torf reports infohash h6, name n, size 7. -/
def c6Torrent : LocalTorrentFile :=
  { id := 2, tracker := sampleTracker, infohash := "h6", name := "n"
    contents := [9], size := 7 }

/-- A consistent local torrent record for the round-trip witness. -/
def c8Record : LocalTorrentFile :=
  { id := 12, tracker := sampleTracker, infohash := "w8", name := "round"
    contents := [3, 1, 4], size := 9 }

theorem mem_ite_singleton {c : Prop} [Decidable c] {a b : ValidationReasons} :
    (a ∈ if c then [b] else ([] : List ValidationReasons)) ↔ a = b ∧ c := by
  split <;> simp_all

theorem mem_exists_block {fe ce : Bool} {r : ValidationReasons} :
    (r ∈ if fe then
        ValidationReasons.FILE_EXISTS_ALREADY ::
          (if ce then [ValidationReasons.FILE_SEEDING_ALREADY] else [])
      else ([] : List ValidationReasons)) ↔
      (r = ValidationReasons.FILE_EXISTS_ALREADY ∧ fe = true) ∨
      (r = ValidationReasons.FILE_SEEDING_ALREADY ∧ fe = true ∧ ce = true) := by
  cases fe <;> cases ce <;> simp

theorem validate_mem (t : Tracker) (item : RSSItem) (env : ValidateEnv)
    (r : ValidationReasons) :
    r ∈ validate t item env ↔
      (r = ValidationReasons.FILE_EXISTS_ALREADY ∧ env.fileExists = true) ∨
      (r = ValidationReasons.FILE_SEEDING_ALREADY ∧ env.fileExists = true ∧
        check_exists env.clientProps = true) ∨
      (r = ValidationReasons.TORRENT_TOO_LARGE ∧
        item.size > t.max_torrent_size_bytes) ∨
      (r = ValidationReasons.TORRENT_TOO_SMALL ∧
        item.size < t.min_torrent_size_bytes) ∨
      (r = ValidationReasons.TRACKER_BUDGET_EXCEEDED ∧
        env.seeding1 + item.size > t.max_storage_size_bytes) ∨
      (r = ValidationReasons.GLOBAL_BUDGET_EXCEEDED ∧
        env.seeding2 + item.size > env.globalMax) ∨
      (r = ValidationReasons.NOT_RECENT_ENOUGH ∧
        env.nowUtc - item.publish_date.utc > t.min_published_recency) := by
  simp only [validate, List.mem_append, mem_exists_block, mem_ite_singleton,
    or_assoc]

/-- C1, counterexample: the claim says the ALREADY_SEEDING
(`FILE_SEEDING_ALREADY`) check is evaluated for every release regardless
of whether the local torrent file already exists on disk.  In the code the
check is nested inside the `os.path.exists` branch: here the client lookup
would report the hash as present (`check_exists` is true), yet because the
file is absent `validate` never reports `FILE_SEEDING_ALREADY`. -/
theorem c1_counterexample :
    c1Env.fileExists = false ∧ check_exists c1Env.clientProps = true ∧
      ValidationReasons.FILE_SEEDING_ALREADY ∉
        validate sampleTracker (sampleItem 600000000) c1Env := by
  decide

/-- C1, amended: all six top-level checks of `validate` are evaluated on
every call with no short-circuiting between them, so one release can carry
several simultaneous reasons; but the `FILE_SEEDING_ALREADY`
(ALREADY_SEEDING) check is evaluated only when the local torrent file
already exists on disk — its membership requires `env.fileExists`.  The
membership of each reason depends only on its own condition (and, for
`FILE_SEEDING_ALREADY`, on file existence), never on the other checks. -/
theorem c1_validate_no_short_circuit (t : Tracker) (item : RSSItem)
    (env : ValidateEnv) (r : ValidationReasons) :
    r ∈ validate t item env ↔
      (r = ValidationReasons.FILE_EXISTS_ALREADY ∧ env.fileExists = true) ∨
      (r = ValidationReasons.FILE_SEEDING_ALREADY ∧ env.fileExists = true ∧
        check_exists env.clientProps = true) ∨
      (r = ValidationReasons.TORRENT_TOO_LARGE ∧
        item.size > t.max_torrent_size_bytes) ∨
      (r = ValidationReasons.TORRENT_TOO_SMALL ∧
        item.size < t.min_torrent_size_bytes) ∨
      (r = ValidationReasons.TRACKER_BUDGET_EXCEEDED ∧
        env.seeding1 + item.size > t.max_storage_size_bytes) ∨
      (r = ValidationReasons.GLOBAL_BUDGET_EXCEEDED ∧
        env.seeding2 + item.size > env.globalMax) ∨
      (r = ValidationReasons.NOT_RECENT_ENOUGH ∧
        env.nowUtc - item.publish_date.utc > t.min_published_recency) :=
  validate_mem t item env r

/-- C2: `TRACKER_BUDGET_EXCEEDED` is reported exactly when the live
per-tracker seeding size plus the release's size strictly exceeds the
tracker's `max_storage_size`; with a budget of 100_000_000 and a live
total of 90_000_000, a 20_000_000 release is flagged and a 5_000_000
release is not. -/
theorem c2_tracker_budget :
    (∀ (t : Tracker) (item : RSSItem) (env : ValidateEnv),
      ValidationReasons.TRACKER_BUDGET_EXCEEDED ∈ validate t item env ↔
        env.seeding1 + item.size > t.max_storage_size_bytes) ∧
    ValidationReasons.TRACKER_BUDGET_EXCEEDED ∈
      validate c2Tracker (c2Item 20000000) c2Env ∧
    ValidationReasons.TRACKER_BUDGET_EXCEEDED ∉
      validate c2Tracker (c2Item 5000000) c2Env := by
  refine ⟨fun t item env => ?_, by decide, by decide⟩
  rw [validate_mem]
  simp

/-- C9: the size checks use inclusive bounds.  In general
`TORRENT_TOO_LARGE` is reported iff `size > max_torrent_size` and
`TORRENT_TOO_SMALL` iff `size < min_torrent_size`; concretely, on the
default tracker profile (min 500_000_000, max 100_000_000_000) a release
at either exact bound receives neither reason, one byte below the minimum
is flagged too small, and one byte above the maximum is flagged too
large. -/
theorem c9_size_bounds_inclusive :
    (∀ (t : Tracker) (item : RSSItem) (env : ValidateEnv),
      (ValidationReasons.TORRENT_TOO_LARGE ∈ validate t item env ↔
        item.size > t.max_torrent_size_bytes) ∧
      (ValidationReasons.TORRENT_TOO_SMALL ∈ validate t item env ↔
        item.size < t.min_torrent_size_bytes)) ∧
    (ValidationReasons.TORRENT_TOO_SMALL ∉
        validate sampleTracker (sampleItem 500000000) c2Env ∧
      ValidationReasons.TORRENT_TOO_LARGE ∉
        validate sampleTracker (sampleItem 500000000) c2Env) ∧
    (ValidationReasons.TORRENT_TOO_SMALL ∉
        validate sampleTracker (sampleItem 100000000000) c2Env ∧
      ValidationReasons.TORRENT_TOO_LARGE ∉
        validate sampleTracker (sampleItem 100000000000) c2Env) ∧
    ValidationReasons.TORRENT_TOO_SMALL ∈
      validate sampleTracker (sampleItem 499999999) c2Env ∧
    ValidationReasons.TORRENT_TOO_LARGE ∈
      validate sampleTracker (sampleItem 100000000001) c2Env := by
  refine ⟨fun t item env => ⟨?_, ?_⟩, by decide, by decide, by decide,
    by decide⟩ <;> rw [validate_mem] <;> simp

/-- C3: `check_seed_times` crashes when a locally tracked torrent's hash
is missing from the torrent client's report: the plain dict lookup
`qbittorrent_info[torrent.infohash]` raises KeyError, aborting the whole
reconciliation pass (here the client reports an unrelated hash only), and
`clean_up` propagates it, so the record is neither reported nor treated —
contrary to the claim, which matches the spec's stated intent. -/
theorem c3_missing_hash_raises :
    check_seed_times (fun _ => some ⟨"h1", "n", 5⟩)
        (fun s => if s = "ggn" then some sampleTracker else none)
        [("[ggn]1.torrent", [1, 2])] [⟨"h2", 100⟩] =
      .error (.keyError "h1") ∧
    clean_up (fun _ => some ⟨"h1", "n", 5⟩)
        (fun s => if s = "ggn" then some sampleTracker else none)
        [("[ggn]1.torrent", [1, 2])] [⟨"h2", 100⟩] =
      .error (.keyError "h1") := by
  exact ⟨rfl, rfl⟩

/-- C10: `parse_datetime` does not preserve the instant of the feed
timestamp: after the time-zone conversion it subtracts another 8 hours
(line 67), so the resulting `publish_time` denotes an instant 28800
seconds earlier than the RFC-822 timestamp for every input — the code's
own test `test_parse_rss_xml` asserts instant equality, which this
contradicts. -/
theorem c10_parse_datetime_shifts_instant :
    (∀ (laOffset : Int → Int) (src : Int),
      (parse_datetime laOffset src).utc = src - 28800) ∧
    (parse_datetime (fun _ => -28800) 0).utc ≠ 0 := by
  constructor
  · intro laOffset src
    norm_num [parse_datetime]
  · decide

theorem mem_insertAsc (x a : RSSItem) (l : List RSSItem) :
    a ∈ insertAsc x l ↔ a = x ∨ a ∈ l := by
  induction l with
  | nil => simp [insertAsc]
  | cons y ys ih =>
    simp only [insertAsc]
    split
    · simp only [List.mem_cons]
    · simp only [List.mem_cons, ih]
      tauto

theorem pairwise_insertAsc (x : RSSItem) (l : List RSSItem)
    (h : l.Pairwise (fun a b => rssKey a ≤ rssKey b)) :
    (insertAsc x l).Pairwise (fun a b => rssKey a ≤ rssKey b) := by
  induction l with
  | nil => simp [insertAsc]
  | cons y ys ih =>
    rw [List.pairwise_cons] at h
    obtain ⟨hy, hys⟩ := h
    simp only [insertAsc]
    split
    · rename_i hlt
      rw [List.pairwise_cons]
      refine ⟨fun b hb => ?_, by rw [List.pairwise_cons]; exact ⟨hy, hys⟩⟩
      rcases List.mem_cons.mp hb with rfl | hb
      · exact le_of_lt hlt
      · exact le_trans (le_of_lt hlt) (hy b hb)
    · rename_i hge
      rw [List.pairwise_cons]
      refine ⟨fun b hb => ?_, ih hys⟩
      rcases (mem_insertAsc x b ys).mp hb with rfl | hb
      · exact le_of_not_lt hge
      · exact hy b hb

theorem pairwise_sortAsc (l : List RSSItem) :
    (sortAsc l).Pairwise (fun a b => rssKey a ≤ rssKey b) := by
  suffices h : ∀ acc : List RSSItem,
      acc.Pairwise (fun a b => rssKey a ≤ rssKey b) →
      (l.foldl (fun acc x => insertAsc x acc) acc).Pairwise
        (fun a b => rssKey a ≤ rssKey b) from h [] (by simp)
  induction l with
  | nil => intro acc h; simpa using h
  | cons y ys ih =>
    intro acc h
    exact ih _ (pairwise_insertAsc y acc h)

/-- C4, counterexample: two releases whose normalized publish times carry
the two Los Angeles offsets (PDT, -25200 s, and PST, -28800 s — reachable
across a DST change).  The sort key drops the offset, so `get_rss` orders
them by wall clock: the returned list has an adjacent pair whose publish
instants are strictly increasing, violating descending-publish-time
order. -/
theorem c4_counterexample :
    get_rss [{ id := 1, title := "A", size := 600000000
               publish_date := { utc := 30600, offset := -25200 }
               download_url := "https://example.com/a"
               torrent := sampleAttrs, tracker := sampleTracker },
             { id := 2, title := "B", size := 700000000
               publish_date := { utc := 33000, offset := -28800 }
               download_url := "https://example.com/b"
               torrent := sampleAttrs, tracker := sampleTracker }] false =
      [{ id := 1, title := "A", size := 600000000
         publish_date := { utc := 30600, offset := -25200 }
         download_url := "https://example.com/a"
         torrent := sampleAttrs, tracker := sampleTracker },
       { id := 2, title := "B", size := 700000000
         publish_date := { utc := 33000, offset := -28800 }
         download_url := "https://example.com/b"
         torrent := sampleAttrs, tracker := sampleTracker }] ∧
    (30600 : Int) < 33000 := by
  exact ⟨by decide, by decide⟩

/-- C4, amended: for every feed and either freeleech flag, `get_rss`
returns the items sorted descending by the wall-clock reading of the
normalized publish time (the `strftime` sort key, which omits the UTC
offset): for all adjacent pairs, `wallclock[i] >= wallclock[i+1]`.  When
all items carry the same UTC offset this coincides with descending
publish instants; across offsets (a DST change) it need not. -/
theorem c4_sorted_by_wallclock (items : List RSSItem) (fl : Bool) :
    List.Chain' (fun a b =>
      b.publish_date.wallclock ≤ a.publish_date.wallclock)
      (get_rss items fl) := by
  apply List.Pairwise.chain'
  simp only [get_rss]
  rw [List.pairwise_reverse]
  exact pairwise_sortAsc _

/-- C7, counterexample: a batch of three feed items in which only the
middle guid lacks a numeric torrent id.  `ProwlarrAPI.parse` returns the
raised ValueError — no item of the batch is returned, although both other
items parse fine on their own — contrary to the claim that only the
affected item is dropped. -/
theorem c7_counterexample :
    ProwlarrAPI.parse (fun _ => -28800) [c7Good1, c7Bad, c7Good2]
      sampleTracker = .error .valueError ∧
    (parseItem (fun _ => -28800) sampleTracker c7Good1).isOk = true ∧
    (parseItem (fun _ => -28800) sampleTracker c7Good2).isOk = true := by
  exact ⟨rfl, rfl, rfl⟩

/-- C7, amended: when a feed item's guid yields no numeric torrent id (and
its attribute block is well-formed), `ProwlarrAPI.parse` raises ValueError
at that item, aborting the entire batch: whatever parsed before it is
discarded and nothing is returned. -/
theorem c7_first_bad_guid_aborts_batch (laOffset : Int → Int)
    (tracker : Tracker) (good : List RawItem) (bad : RawItem)
    (rest : List RawItem)
    (hgood : ∀ i ∈ good, (parseItem laOffset tracker i).isOk = true)
    (hattrs : TorznabAttr.from_rss bad.attrs ≠ none)
    (hguid : findTorrentId bad.guid = none) :
    ProwlarrAPI.parse laOffset (good ++ bad :: rest) tracker =
      .error .valueError := by
  induction good with
  | nil =>
    obtain ⟨ta, hta⟩ := Option.ne_none_iff_exists'.mp hattrs
    simp [ProwlarrAPI.parse, parseItem, hta, hguid]
  | cons g gs ih =>
    have hg : (parseItem laOffset tracker g).isOk = true :=
      hgood g (List.mem_cons_self g gs)
    obtain ⟨r, hr⟩ : ∃ r, parseItem laOffset tracker g = .ok r := by
      cases hpg : parseItem laOffset tracker g with
      | ok r => exact ⟨r, rfl⟩
      | error e => rw [hpg] at hg; simp [Except.isOk, Except.toBool] at hg
    have ih2 := ih (fun i hi => hgood i (List.mem_cons_of_mem g hi))
    simp [ProwlarrAPI.parse, hr, ih2]

/-- C7, witness: the amended theorem applied to the concrete batch of the
counterexample — one good item before the bad one, one after. -/
theorem c7_witness :
    ProwlarrAPI.parse (fun _ => -28800) ([c7Good1] ++ c7Bad :: [c7Good2])
      sampleTracker = .error .valueError :=
  c7_first_bad_guid_aborts_batch (fun _ => -28800) sampleTracker
    [c7Good1] c7Bad [c7Good2] (by decide) (by decide) (by decide)

theorem clean_up_loop_cons_due (t : LocalTorrentFile) (sd : Int)
    (rest : List (LocalTorrentFile × Int)) (st : CleanupResult)
    (h : ¬ sd < t.tracker.min_seeding_time) :
    clean_up_loop ((t, sd) :: rest) st = clean_up_loop rest
      { results := st.results ++ [(t, true)]
        deletes := st.deletes ++ [t.infohash]
        disk :=
          if os_path_exists st.disk (generate_filepath t.tracker t.id) then
            st.disk.erase (generate_filepath t.tracker t.id)
          else st.disk } := by
  by_cases hex : os_path_exists st.disk (generate_filepath t.tracker t.id)
  · have hc : st.disk.contains (generate_filepath t.tracker t.id) = true := hex
    simp only [clean_up_loop, if_neg h, if_pos hex, os_remove, if_pos hc]
    rfl
  · simp only [clean_up_loop, if_neg h, if_neg hex]
    exact pure_bind _ _

theorem clean_up_loop_spec (ts : List (LocalTorrentFile × Int)) :
    ∀ st : CleanupResult, ∃ disk',
      clean_up_loop ts st = .ok
        { results := st.results ++
            ts.map (fun p => (p.1, decide (p.1.tracker.min_seeding_time ≤ p.2)))
          deletes := st.deletes ++
            (ts.filter
              (fun p => decide (p.1.tracker.min_seeding_time ≤ p.2))).map
              (fun p => p.1.infohash)
          disk := disk' } := by
  induction ts with
  | nil =>
    intro st
    exact ⟨st.disk, by simp [clean_up_loop]⟩
  | cons p rest ih =>
    intro st
    obtain ⟨t, sd⟩ := p
    by_cases h : sd < t.tracker.min_seeding_time
    · have hb : decide (t.tracker.min_seeding_time ≤ sd) = false :=
        decide_eq_false (not_le.mpr h)
      obtain ⟨d', hd⟩ := ih { results := st.results ++ [(t, false)]
                              deletes := st.deletes
                              disk := st.disk }
      refine ⟨d', ?_⟩
      simp only [clean_up_loop, if_pos h]
      rw [hd]
      simp [hb]
    · have hb : decide (t.tracker.min_seeding_time ≤ sd) = true :=
        decide_eq_true (le_of_not_lt h)
      obtain ⟨d', hd⟩ := ih
        { results := st.results ++ [(t, true)]
          deletes := st.deletes ++ [t.infohash]
          disk :=
            if os_path_exists st.disk (generate_filepath t.tracker t.id) then
              st.disk.erase (generate_filepath t.tracker t.id)
            else st.disk }
      refine ⟨d', ?_⟩
      rw [clean_up_loop_cons_due t sd rest st h, hd]
      simp [hb]

/-- C5: the cleanup pass deletes exactly the torrents whose client-reported
seed time is at least the tracker's `min_seeding_time`.  Whenever the
reconciliation step yields the pairs `ts`, `clean_up` succeeds, its
returned map marks each torrent removed iff `min_seeding_time <= seed
time` (so the exact boundary is removed), and the torrent-client delete
calls are issued precisely for those torrents, in order. -/
theorem c5_cleanup_threshold (torfRead : List Nat → Option TorfInfo)
    (registry : String → Option Tracker) (files : List (String × List Nat))
    (report : List QBTInfo) (ts : List (LocalTorrentFile × Int))
    (hts : check_seed_times torfRead registry files report = .ok ts) :
    ∃ disk', clean_up torfRead registry files report = .ok
      { results := ts.map
          (fun p => (p.1, decide (p.1.tracker.min_seeding_time ≤ p.2)))
        deletes := (ts.filter
            (fun p => decide (p.1.tracker.min_seeding_time ≤ p.2))).map
            (fun p => p.1.infohash)
        disk := disk' } := by
  obtain ⟨d', hd⟩ := clean_up_loop_spec ts
    { results := [], deletes := [], disk := files.map Prod.fst }
  simp only [List.nil_append] at hd
  refine ⟨d', ?_⟩
  simp only [clean_up]
  rw [hts]
  exact hd

/-- C5, witness: the characterization applied to a directory holding one
torrent whose seed time equals the boundary exactly: it is removed and its
hash is deleted at the client. -/
theorem c5_witness :
    ∃ disk', clean_up (fun _ => some ⟨"h1", "n", 5⟩)
        (fun s => if s = "ggn" then some sampleTracker else none)
        [("[ggn]1.torrent", [1, 2])] [⟨"h1", 604800⟩] = .ok
      { results := [(c5Torrent, 604800)].map
          (fun p => (p.1, decide (p.1.tracker.min_seeding_time ≤ p.2)))
        deletes := ([(c5Torrent, 604800)].filter
            (fun p => decide (p.1.tracker.min_seeding_time ≤ p.2))).map
            (fun p => p.1.infohash)
        disk := disk' } :=
  c5_cleanup_threshold (fun _ => some ⟨"h1", "n", 5⟩)
    (fun s => if s = "ggn" then some sampleTracker else none)
    [("[ggn]1.torrent", [1, 2])] [⟨"h1", 604800⟩]
    [(c5Torrent, 604800)] rfl

/-- C6: cleanup is idempotent for a removed torrent.  For a directory
holding a single due torrent: the first pass deletes the client entry once
and removes the local file; the resulting directory is empty, so a second
pass — with any client report — succeeds with no delete call and no
error.  Moreover, within a pass, a due torrent whose local file is already
absent is swept without touching the disk and without raising: the
`os.path.exists` guard makes the file deletion a no-op rather than an
error. -/
theorem c6_cleanup_idempotent (torfRead : List Nat → Option TorfInfo)
    (registry : String → Option Tracker) (fname : String)
    (contents : List Nat) (t : LocalTorrentFile) (sd : Int)
    (h1 : LocalTorrentFile.from_filepath torfRead registry fname contents =
      .ok t)
    (h2 : generate_filepath t.tracker t.id = fname)
    (h3 : t.tracker.min_seeding_time ≤ sd) :
    clean_up torfRead registry [(fname, contents)] [⟨t.infohash, sd⟩] =
      .ok { results := [(t, true)], deletes := [t.infohash], disk := [] } ∧
    (∀ report2 : List QBTInfo, clean_up torfRead registry [] report2 =
      .ok { results := [], deletes := [], disk := [] }) ∧
    (∀ (disk : List String) (rs : List (LocalTorrentFile × Bool))
        (ds : List String),
      os_path_exists disk (generate_filepath t.tracker t.id) = false →
      clean_up_loop [(t, sd)] { results := rs, deletes := ds, disk := disk } =
        .ok { results := rs ++ [(t, true)], deletes := ds ++ [t.infohash]
              disk := disk }) := by
  have hnl : ¬ sd < t.tracker.min_seeding_time := not_lt.mpr h3
  refine ⟨?_, fun report2 => rfl, fun disk rs ds hex => ?_⟩
  · have hcst : check_seed_times torfRead registry [(fname, contents)]
        [⟨t.infohash, sd⟩] = .ok [(t, sd)] := by
      simp [check_seed_times, listdir_torrents, h1, seed_time_pairs,
        qbtLookup, dictInsert]
    simp only [clean_up]
    rw [hcst]
    show clean_up_loop [(t, sd)]
      { results := [], deletes := [], disk := [fname] } = _
    rw [clean_up_loop_cons_due t sd [] _ hnl]
    have hexy : os_path_exists [fname] (generate_filepath t.tracker t.id) =
        true := by simp [os_path_exists, h2]
    rw [if_pos hexy, h2]
    simp [clean_up_loop, List.erase_cons_head]
  · rw [clean_up_loop_cons_due t sd [] _ hnl,
      if_neg (by simp [hex])]
    rfl

theorem digitCharVal (d : Nat) (h : d < 10) :
    (Nat.digitChar d).toNat - 48 = d := by
  interval_cases d <;> rfl

theorem digitChar_isDigit (d : Nat) (h : d < 10) :
    (Nat.digitChar d).isDigit = true := by
  interval_cases d <;> rfl

theorem digitsVal_decimalRepr (n : Nat) : digitsVal (decimalRepr n) = n := by
  induction n using Nat.strong_induction_on with
  | _ n ih =>
    rw [decimalRepr]
    split
    · rename_i h
      simp only [digitsVal, List.foldl_cons, List.foldl_nil, Nat.zero_mul,
        Nat.zero_add]
      exact digitCharVal n h
    · rename_i h
      have ih10 := ih (n / 10) (Nat.div_lt_self (by omega) (by omega))
      have h10 : n % 10 < 10 := Nat.mod_lt _ (by omega)
      simp only [digitsVal, List.foldl_append, List.foldl_cons,
        List.foldl_nil] at ih10 ⊢
      rw [ih10, digitCharVal (n % 10) h10]
      omega

theorem decimalRepr_digits (n : Nat) :
    ∀ c ∈ decimalRepr n, c.isDigit = true := by
  induction n using Nat.strong_induction_on with
  | _ n ih =>
    rw [decimalRepr]
    split
    · rename_i h
      intro c hc
      rw [List.mem_singleton] at hc
      subst hc
      exact digitChar_isDigit n h
    · rename_i h
      intro c hc
      rw [List.mem_append] at hc
      rcases hc with hc | hc
      · exact ih (n / 10) (Nat.div_lt_self (by omega) (by omega)) c hc
      · rw [List.mem_singleton] at hc
        subst hc
        exact digitChar_isDigit (n % 10) (Nat.mod_lt _ (by omega))

theorem decimalRepr_ne_nil (n : Nat) : decimalRepr n ≠ [] := by
  rw [decimalRepr]
  split <;> simp

theorem takeWhile_digits (ds tl : List Char)
    (h : ∀ c ∈ ds, c.isDigit = true) :
    (ds ++ '.' :: tl).takeWhile Char.isDigit = ds ∧
    (ds ++ '.' :: tl).dropWhile Char.isDigit = '.' :: tl := by
  induction ds with
  | nil =>
    constructor
    · rw [List.nil_append, List.takeWhile_cons]
      simp
    · rw [List.nil_append, List.dropWhile_cons]
      simp
  | cons d ds' ih =>
    have hd : d.isDigit = true := h d (List.mem_cons_self d ds')
    have ih2 := ih (fun c hc => h c (List.mem_cons_of_mem d hc))
    constructor
    · rw [List.cons_append, List.takeWhile_cons, if_pos hd, ih2.1]
    · rw [List.cons_append, List.dropWhile_cons, if_pos hd, ih2.2]

theorem matchIdTorrent_spec (ds : List Char) (hne : ds ≠ [])
    (h : ∀ c ∈ ds, c.isDigit = true) :
    matchIdTorrent (ds ++ '.' :: "torrent".data) = some ds := by
  obtain ⟨tw, dw⟩ := takeWhile_digits ds "torrent".data h
  rw [matchIdTorrent, tw, dw]
  cases ds with
  | nil => exact absurd rfl hne
  | cons d ds' =>
    have hlen : (d :: ds').length = ds'.length + 1 := rfl
    rw [hlen]
    simp only [tryDigitLens]
    rw [← hlen, List.drop_length]
    rw [if_pos (by rfl), List.take_length]

theorem bracketSplits_eq_nil {ys : List Char} (h : ']' ∉ ys) :
    bracketSplits ys = [] := by
  induction ys with
  | nil => rfl
  | cons c cs ih =>
    have hcne : ¬ (c = ']') := fun hc => h (by
      subst hc
      exact List.mem_cons_self _ _)
    simp only [bracketSplits]
    rw [if_neg hcne, ih (fun hm => h (List.mem_cons_of_mem c hm))]
    rfl

theorem bracketSplits_append (xs : List Char) {ys : List Char}
    (h : ']' ∉ ys) :
    ∃ junk, (bracketSplits (xs ++ ']' :: ys)).reverse = (xs, ys) :: junk := by
  induction xs with
  | nil =>
    refine ⟨[], ?_⟩
    simp only [List.nil_append, bracketSplits, if_pos rfl,
      bracketSplits_eq_nil h]
    rfl
  | cons x xs' ih =>
    obtain ⟨junk, hj⟩ := ih
    simp only [List.cons_append, bracketSplits, List.append_eq]
    split
    · rw [List.reverse_cons, ← List.map_reverse, hj]
      exact ⟨List.map (fun p => (x :: p.1, p.2)) junk ++
        [([], xs' ++ ']' :: ys)], by simp⟩
    · rw [← List.map_reverse, hj]
      exact ⟨List.map (fun p => (x :: p.1, p.2)) junk, by simp⟩

theorem generate_filepath_data (tk : Tracker) (i : Nat) :
    (generate_filepath tk i).data =
      '[' :: (tk.name.data ++ ']' :: (decimalRepr i ++ '.' :: "torrent".data)) := by
  simp only [generate_filepath, String.data_append, List.append_assoc]
  rfl

theorem parseFilename_roundtrip (tk : Tracker) (i : Nat) :
    parseFilename (generate_filepath tk i) = some (tk.name, i) := by
  have hys : ']' ∉ decimalRepr i ++ '.' :: "torrent".data := by
    intro hm
    rw [List.mem_append] at hm
    rcases hm with hm | hm
    · exact absurd (decimalRepr_digits i _ hm) (by decide)
    · revert hm
      decide
  obtain ⟨junk, hj⟩ := bracketSplits_append tk.name.data hys
  rw [parseFilename, generate_filepath_data]
  simp only [parseFilenameList]
  rw [hj, List.findSome?_cons,
    matchIdTorrent_spec (decimalRepr i) (decimalRepr_ne_nil i)
      (decimalRepr_digits i)]
  simp [digitsVal_decimalRepr]

theorem fsLookup_fsInsert (fs : List (String × List Nat)) (k : String)
    (v : List Nat) : fsLookup (fsInsert fs k v) k = some v := by
  induction fs with
  | nil => simp [fsInsert, fsLookup]
  | cons p rest ih =>
    obtain ⟨k', v'⟩ := p
    by_cases hk : k' = k
    · simp [fsInsert, hk, fsLookup]
    · simp only [fsInsert, if_neg hk]
      simp only [fsLookup, List.find?_cons] at ih ⊢
      have hbeq : (k' == k) = false := beq_eq_false_iff_ne.mpr hk
      rw [hbeq]
      exact ih

/-- C8: the persistence round trip.  Writing a `LocalTorrentFile` to its
deterministic path with `to_file` and rebuilding a record from that path
with `from_filepath` — recovering tracker and id purely from the file
name — yields the very same `id`, `tracker` and `infohash` (indeed the
identical record).  Hypotheses: the tracker registry maps the record's
tracker name back to its tracker (as `AVAILABLE_TRACKERS` does by
construction), and the record is consistent with its bytes, i.e. torf
reports the record's own infohash/name/size for its contents (true of
every record the program constructs, since all go through
`from_bytes`). -/
theorem c8_roundtrip (torfRead : List Nat → Option TorfInfo)
    (registry : String → Option Tracker) (fs : List (String × List Nat))
    (r : LocalTorrentFile)
    (hreg : registry r.tracker.name = some r.tracker)
    (htorf : torfRead r.contents = some ⟨r.infohash, r.name, r.size⟩) :
    fsLookup (LocalTorrentFile.to_file fs r)
        (generate_filepath r.tracker r.id) = some r.contents ∧
    LocalTorrentFile.from_filepath torfRead registry
        (generate_filepath r.tracker r.id) r.contents = .ok r := by
  constructor
  · exact fsLookup_fsInsert fs _ _
  · simp only [LocalTorrentFile.from_filepath, parseFilename_roundtrip,
      hreg, LocalTorrentFile.from_bytes, htorf, Option.map_some']

/-- C8, witness: the round trip applied to a concrete record on an empty
directory, with a torf oracle and registry matching the record. -/
theorem c8_witness :
    fsLookup (LocalTorrentFile.to_file [] c8Record)
        (generate_filepath c8Record.tracker c8Record.id) =
      some c8Record.contents ∧
    LocalTorrentFile.from_filepath (fun _ => some ⟨"w8", "round", 9⟩)
        (fun s => if s = "ggn" then some sampleTracker else none)
        (generate_filepath c8Record.tracker c8Record.id) c8Record.contents =
      .ok c8Record :=
  c8_roundtrip (fun _ => some ⟨"w8", "round", 9⟩)
    (fun s => if s = "ggn" then some sampleTracker else none) [] c8Record
    rfl rfl

/-- C6, witness: the idempotence theorem applied to a directory holding
exactly one due torrent: one delete call, file removed. -/
theorem c6_witness :
    clean_up (fun _ => some ⟨"h6", "n", 7⟩)
        (fun s => if s = "ggn" then some sampleTracker else none)
        [("[ggn]2.torrent", [9])] [⟨"h6", 604800⟩] =
      .ok { results := [(c6Torrent, true)], deletes := ["h6"], disk := [] } :=
  (c6_cleanup_idempotent (fun _ => some ⟨"h6", "n", 7⟩)
    (fun s => if s = "ggn" then some sampleTracker else none)
    "[ggn]2.torrent" [9] c6Torrent 604800 rfl
    (by rw [generate_filepath, decimalRepr]; rfl) (by decide)).1
